import Mathlib

set_option linter.unusedVariables false

/-!
Shallow embedding of `src/ssh2/client.py` (class `SSH`) of the python-ssh
repository: the command-execution and channel-draining core, the session
lifecycle (`connect` / `disconnect`), and the error paths the specification
talks about.

The remote side of an execution channel is modelled by a schedule of
`Event`s: between two polls of the drain loop, some stdout bytes and some
stderr bytes may arrive, the remote may signal exit-status-ready, and the
remote may close the channel.  The drain loop itself is a fuel-indexed
function (`drainLoop`) that mirrors the loop of `SSH.__execute` line by
line and additionally records the trace of observable channel actions, so
that ordering properties (write side closed before reads, channel closed
only when drained) can be stated.
-/

namespace PySsh

/-- One step of the remote environment, delivered to the channel between
polls of the drain loop: bytes arriving on stdout and on stderr, whether
the remote signals exit-status-ready, and whether the remote closes the
channel. -/
structure Event where
  out : String
  err : String
  exit : Bool
  close : Bool
deriving Repr, DecidableEq

/-- The quiet event: nothing arrives (used when the schedule is over). -/
def Event.quiet : Event := ⟨"", "", false, false⟩

/-- State of a `paramiko.Channel` as `SSH.__execute` observes it: the
pending stdout bytes (`in_buffer`), the pending stderr bytes
(`in_stderr_buffer`), the exit-status-ready flag, the remote exit code,
and the closed / shutdown flags. -/
structure Channel where
  inBuf : String
  errBuf : String
  exitReady : Bool
  exitCode : Int
  closed : Bool
  readShut : Bool
  writeShut : Bool
  stdinClosed : Bool
deriving Repr, DecidableEq

/-- `channel.recv_ready()`: the stdout buffer has unread data. -/
def Channel.recvReady (ch : Channel) : Bool := ch.inBuf != ""

/-- `channel.recv_stderr_ready()`: the stderr buffer has unread data. -/
def Channel.recvStderrReady (ch : Channel) : Bool := ch.errBuf != ""

/-- `channel.exit_status_ready()`. -/
def Channel.exitStatusReady (ch : Channel) : Bool := ch.exitReady

/-- Readiness reported by `select.select([channel], [], [], 0.0)`: paramiko
feeds the channel's event pipe from both the stdout and the stderr buffer,
so the channel selects as readable exactly when either stream has pending
data. -/
def Channel.selectReady (ch : Channel) : Bool := ch.recvReady || ch.recvStderrReady

/-- Arrival of one environment event on the channel: bytes are appended to
the respective buffers, exit-status-ready and closed are sticky flags. -/
def Channel.deliver (ch : Channel) (e : Event) : Channel :=
  { ch with
    inBuf := ch.inBuf ++ e.out
    errBuf := ch.errBuf ++ e.err
    exitReady := ch.exitReady || e.exit
    closed := ch.closed || e.close }

/-- Observable actions `SSH.__execute` and `SSH.execute_realtime` perform
on the channel and its streams, in program order.  `closeChannel` records
the channel's exit-ready flag and both pending buffers at the moment of
the close. -/
inductive Action where
  | execCommand (cmd : String)
  | closeStdin
  | shutdownWrite
  | preRead (s : String)
  | readOut (s : String)
  | readErr (s : String)
  | shutdownRead
  | closeChannel (exitReady : Bool) (outPending : String) (errPending : String)
  | closeStdoutFile
  | closeStderrFile
  | writeFile (s : String)
  | readLine (s : String)
  | printLine (s : String)
  | closeChannelRealtime
deriving Repr, DecidableEq

/-- An action is a read of command output (the pre-read, a stdout read, a
stderr read, or a line read of the real-time variant). -/
def Action.isRead : Action → Bool
  | .preRead _ => true
  | .readOut _ => true
  | .readErr _ => true
  | .readLine _ => true
  | _ => false

/-- Head event of the schedule (quiet when the schedule is exhausted),
with the rest of the schedule. -/
def nextEvent : List Event → Event × List Event
  | [] => (Event.quiet, [])
  | e :: es => (e, es)

/-- Body of the `for c in readq:` block of `SSH.__execute` (client.py
lines 290-295): when the zero-timeout poll reports readiness, read and
append all currently pending stdout bytes, then all currently pending
stderr bytes.  Returns the updated channel, the updated `self._output`
accumulator, and the trace of reads performed. -/
def readBlock (ch : Channel) (acc : List String) :
    Channel × List String × List Action :=
  if ch.selectReady then
    let p1 :=
      if ch.recvReady then
        ({ ch with inBuf := "" }, acc ++ [ch.inBuf], [Action.readOut ch.inBuf])
      else (ch, acc, ([] : List Action))
    let chA := p1.1
    let accA := p1.2.1
    let trA := p1.2.2
    if chA.recvStderrReady then
      ({ chA with errBuf := "" }, accA ++ [chA.errBuf], trA ++ [Action.readErr chA.errBuf])
    else (chA, accA, trA)
  else (ch, acc, [])

/-- The polling drain loop of `SSH.__execute` (client.py lines 289-299),
with an explicit fuel bound on the number of iterations run.  Each
iteration first receives the next environment event (the data that arrived
on the wire since the previous poll; quiet when the environment has
nothing left), then mirrors the loop body: poll, read pending stdout and
stderr, and on exit-status-ready with neither stream pending shut down the
read direction, close the channel and break.  Returns `none` when fuel
runs out with the loop still running, together with the trace of actions
performed. -/
def drainLoop : Nat → List Event → Channel → List String →
    Option (Channel × List String) × List Action
  | 0, _, _, _ => (none, [])
  | fuel + 1, sched, ch, acc =>
    if !ch.closed || ch.recvReady || ch.recvStderrReady then
      let er := nextEvent sched
      let ch1 := ch.deliver er.1
      let rb := readBlock ch1 acc
      let ch2 := rb.1
      let acc1 := rb.2.1
      let tr1 := rb.2.2
      if ch2.exitStatusReady && !ch2.recvStderrReady && !ch2.recvReady then
        (some ({ ch2 with readShut := true, closed := true }, acc1),
          tr1 ++ [Action.shutdownRead,
            Action.closeChannel ch2.exitReady ch2.inBuf ch2.errBuf])
      else
        let res := drainLoop fuel er.2 ch2 acc1
        (res.1, tr1 ++ res.2)
    else (some (ch, acc), [])

/-- `SSH.__execute` (client.py lines 273-306) relative to one freshly
opened execution channel `ch0` and the schedule `sched` of data that will
arrive on it: close stdin, shut down the write direction, do the
unconditional pre-read of whatever stdout bytes are already buffered, run
the drain loop, close the stream wrappers, optionally append the joined
captured string to the supplied file content, and return the grown
`self._output` accumulator, the joined captured string, the exit status
and the file's new content, plus the full action trace. -/
def execCaptured (cmd : String) (ch0 : Channel) (sched : List Event)
    (output0 : List String) (file : Option String) (fuel : Nat) :
    Option (List String × String × Int × Option String) × List Action :=
  let ch1 := { ch0 with stdinClosed := true }
  let ch2 := { ch1 with writeShut := true }
  let output1 := output0 ++ [ch2.inBuf]
  let ch3 := { ch2 with inBuf := "" }
  let tr0 := [Action.execCommand cmd, Action.closeStdin, Action.shutdownWrite,
    Action.preRead ch2.inBuf]
  match drainLoop fuel sched ch3 output1 with
  | (none, tr) => (none, tr0 ++ tr)
  | (some (ch4, output2), tr) =>
    let joined := String.join output2
    let fw : Option String × List Action :=
      match file with
      | none => (none, [])
      | some f => (some (f ++ joined), [Action.writeFile joined])
    (some (output2, joined, ch4.exitCode, fw.1),
      tr0 ++ tr ++ [Action.closeStdoutFile, Action.closeStderrFile] ++ fw.2)

/-- `SSH.execute_realtime` (client.py lines 308-334): request a pty
channel, close stdin, shut down the write direction, iterate over the
lines of the combined pty stream printing each one, then shut down the
read direction, close the channel, and return the exit status. -/
def executeRealtime (cmd : String) (lines : List String) (exitCode : Int) :
    Int × List Action :=
  (exitCode,
    [Action.execCommand cmd, Action.closeStdin, Action.shutdownWrite] ++
    (lines.map fun l => [Action.readLine l, Action.printLine l]).flatten ++
    [Action.shutdownRead, Action.closeChannelRealtime])

/-- Concatenation of all stdout bytes a schedule delivers. -/
def schedOut (sched : List Event) : String := String.join (sched.map Event.out)

/-- Concatenation of all stderr bytes a schedule delivers. -/
def schedErr (sched : List Event) : String := String.join (sched.map Event.err)

/-- The repository's error kinds (`src/ssh2/errors.py`), plus the Python
`AttributeError` that calling a method on `None` raises. -/
inductive SSHError where
  | connectionError (msg : String)
  | configurationError (msg : String)
  | channelError (msg : String)
  | sftpError (msg : String)
  | attributeError (msg : String)
deriving Repr, DecidableEq

/-- Whether an error is of the connection-error kind: in
`src/ssh2/errors.py`, `SSHChannelError` and `SFTPError` are subclasses of
`SSHConnectionError`; a configuration error or a Python `AttributeError`
is not. -/
def SSHError.isConnectionError : SSHError → Bool
  | .connectionError _ => true
  | .channelError _ => true
  | .sftpError _ => true
  | .configurationError _ => false
  | .attributeError _ => false

/-- Model of the `paramiko.SSHClient` a session holds: all the execution
core observes of it is its `_transport` field.  `SSHClient.close()`
closes the transport and sets the field back to `None`. -/
structure Client where
  transport : Option Unit
deriving Repr, DecidableEq

/-- The session object (class `SSH`): the wrapped client and the
`self._output` accumulator. -/
structure SSH where
  client : Option Client
  output : List String
deriving Repr, DecidableEq

/-- `SSH.__init__` (client.py lines 93-98): no client, empty accumulator. -/
def SSH.mk0 : SSH := ⟨none, []⟩

/-- `SSH.disconnect` (client.py lines 171-177): if the handle holds an
`SSHClient`, call its `close()` -- which closes the transport and sets
the client's `_transport` to `None` (and early-returns when it already is
`None`); otherwise do nothing. -/
def SSH.disconnect (s : SSH) : SSH :=
  match s.client with
  | some _ => { s with client := some ⟨none⟩ }
  | none => s

/-- The environment of one `exec_command` call: the stdout and stderr
bytes already buffered when the pre-read runs, the schedule of later
arrivals, and the remote exit code. -/
structure World where
  initOut : String
  initErr : String
  sched : List Event
  exitCode : Int
deriving Repr, DecidableEq

/-- The freshly opened channel `paramiko.SSHClient.exec_command` returns
for a world: possibly some already-buffered data, no flags set. -/
def World.channel (w : World) : Channel :=
  ⟨w.initOut, w.initErr, false, w.exitCode, false, false, false, false⟩

/-- Session-level captured execution: `SSH.__execute` including the
`self._client.exec_command(command)` call that opens the channel,
modelling the external paramiko collaborator: on a handle whose client is
`None`, `self._client.exec_command` raises `AttributeError`; on a client
whose `_transport` is `None` (never opened, or set to `None` by
`close()`), `exec_command`'s own `self._transport.open_session(...)`
raises `AttributeError`; with a live transport it yields the world's
channel.  `.ok none` stands for the fuel running out with the drain loop
still going (the call not returning). -/
def SSH.executeFull (s : SSH) (cmd : String) (w : World) (file : Option String)
    (fuel : Nat) : Except SSHError (Option (SSH × String × Int × Option String)) :=
  match s.client with
  | none => .error (.attributeError "NoneType object has no attribute exec_command")
  | some c =>
    match c.transport with
    | none => .error (.attributeError "NoneType object has no attribute open_session")
    | some _ =>
      match execCaptured cmd w.channel w.sched s.output file fuel with
      | (none, _) => .ok none
      | (some (out2, cap, rc, f1), _) => .ok (some ({ s with output := out2 }, cap, rc, f1))

/-- Whether an execution outcome is a raised error of the
connection-error kind. -/
def raisedConnectionError
    (r : Except SSHError (Option (SSH × String × Int × Option String))) : Bool :=
  match r with
  | .error e => e.isConnectionError
  | .ok _ => false

/-- `SSH.execute` (client.py lines 336-353): captured execution with no
side-output file. -/
def SSH.execute (s : SSH) (cmd : String) (w : World) (fuel : Nat) :
    Except SSHError (Option (SSH × String × Int × Option String)) :=
  SSH.executeFull s cmd w none fuel

/-- `SSH.execute_file` (client.py lines 355-376): captured execution that
also appends the captured string to the supplied file (whose prior content
is `f`). -/
def SSH.executeFile (s : SSH) (cmd : String) (w : World) (f : String) (fuel : Nat) :
    Except SSHError (Option (SSH × String × Int × Option String)) :=
  SSH.executeFull s cmd w (some f) fuel

/-- The keyword names of `SSH.DEFAULT_CONFIG` (client.py lines 71-91). -/
def defaultConfigKeys : List String :=
  ["hostname", "port", "username", "password", "key_filename", "timeout",
   "allow_agent", "look_for_keys", "compress", "sock", "gss_auth", "gss_kex",
   "gss_deleg_creds", "gss_host", "gss_trust_dns", "banner_timeout",
   "auth_timeout", "passphrase", "disabled_algorithms"]

/-- Connection parameters as `SSH.__connect` sees them: the multiset of
keyword names supplied and the hostname value (the only value its error
path reads). -/
structure Config where
  keys : List String
  hostname : String
deriving Repr, DecidableEq

/-- `SSH.__configure` (client.py lines 100-116): reject any keyword name
that is not in `DEFAULT_CONFIG`. -/
def SSH.configure (cfg : Config) : Except SSHError Unit :=
  let extra := cfg.keys.filter (fun k => !(defaultConfigKeys.contains k))
  if extra.isEmpty then .ok ()
  else .error (.configurationError
    ("Unsupported configuration property (or properties): " ++ String.join extra))

/-- The transport-level failures `SSH.__connect` catches: socket errors,
SSH exceptions, authentication failures, bad authentication types and bad
host keys, each carrying its message. -/
inductive TransportFailure where
  | socketError (msg : String)
  | sshException (msg : String)
  | authenticationFailed (msg : String)
  | badAuthenticationType (msg : String)
  | badHostKey (msg : String)
deriving Repr, DecidableEq

/-- The message a transport failure prints. -/
def TransportFailure.message : TransportFailure → String
  | .socketError m => m
  | .sshException m => m
  | .authenticationFailed m => m
  | .badAuthenticationType m => m
  | .badHostKey m => m

/-- `SSH.__connect` (client.py lines 118-139): validate the configuration,
then make exactly one connection attempt -- `oracle` is the outcome the
external paramiko `connect` produces for that attempt -- and wrap any
caught transport failure once into an `SSHConnectionError` naming the
target hostname.  The second component counts the connection attempts
made. -/
def SSH.connectPrivate (cfg : Config) (oracle : Except TransportFailure Client) :
    Except SSHError Client × Nat :=
  match SSH.configure cfg with
  | .error e => (.error e, 0)
  | .ok _ =>
    match oracle with
    | .ok c => (.ok c, 1)
    | .error err =>
      (.error (.connectionError
        ("Connection to '" ++ cfg.hostname ++ "' failed with error: " ++ err.message)), 1)

/-- `SSH.connect` (client.py lines 179-221): store the client obtained by
`SSH.__connect` on the session. -/
def SSH.connect (s : SSH) (cfg : Config) (oracle : Except TransportFailure Client) :
    Except SSHError SSH × Nat :=
  match SSH.connectPrivate cfg oracle with
  | (.ok c, n) => (.ok { s with client := some c }, n)
  | (.error e, n) => (.error e, n)

/-! Helper lemmas about `String.join`. -/

theorem join_append_singleton (l : List String) (s : String) :
    String.join (l ++ [s]) = String.join l ++ s := by
  simp [String.join, List.foldl_append]

theorem join_cons (s : String) (l : List String) :
    String.join (s :: l) = s ++ String.join l := by
  apply String.ext
  simp [String.join_eq, String.data_append]

theorem join_append (l1 l2 : List String) :
    String.join (l1 ++ l2) = String.join l1 ++ String.join l2 := by
  apply String.ext
  simp [String.join_eq, String.data_append]

theorem join_nil : String.join [] = "" := rfl

theorem schedOut_cons (x : Event) (l : List Event) :
    schedOut (x :: l) = x.out ++ schedOut l := by
  simp [schedOut, join_cons]

theorem schedErr_cons (x : Event) (l : List Event) :
    schedErr (x :: l) = x.err ++ schedErr l := by
  simp [schedErr, join_cons]

theorem schedOut_nil : schedOut [] = "" := rfl

theorem schedErr_nil : schedErr [] = "" := rfl

/-- `IsInterleave xs ys zs`: `zs` is an order-preserving interleaving of
`xs` and `ys` -- every element of `xs` and of `ys` occurs in `zs`, each
stream in its own order, with arbitrary relative order between the two. -/
inductive IsInterleave : List Char → List Char → List Char → Prop where
  | nil : IsInterleave [] [] []
  | left {a : Char} {xs ys zs : List Char} :
      IsInterleave xs ys zs → IsInterleave (a :: xs) ys (a :: zs)
  | right {b : Char} {xs ys zs : List Char} :
      IsInterleave xs ys zs → IsInterleave xs (b :: ys) (b :: zs)

theorem IsInterleave.left_nil : ∀ xs : List Char, IsInterleave xs [] xs
  | [] => .nil
  | _ :: xs => .left (IsInterleave.left_nil xs)

theorem IsInterleave.nil_right : ∀ ys : List Char, IsInterleave [] ys ys
  | [] => .nil
  | _ :: ys => .right (IsInterleave.nil_right ys)

theorem IsInterleave.append {x1 y1 z1 x2 y2 z2 : List Char}
    (h1 : IsInterleave x1 y1 z1) (h2 : IsInterleave x2 y2 z2) :
    IsInterleave (x1 ++ x2) (y1 ++ y2) (z1 ++ z2) := by
  induction h1 with
  | nil => simpa using h2
  | left _ ih => exact .left ih
  | right _ ih => exact .right ih

theorem IsInterleave.pair (o r : List Char) : IsInterleave o r (o ++ r) := by
  simpa using (IsInterleave.left_nil o).append (IsInterleave.nil_right r)

/-! Characterization of `readBlock`. -/

theorem readBlock_channel (ch : Channel) (acc : List String) :
    (readBlock ch acc).1 = { ch with inBuf := "", errBuf := "" } := by
  cases ch with
  | mk inBuf errBuf exitReady exitCode closed readShut writeShut stdinClosed =>
    by_cases hi : inBuf = "" <;> by_cases he : errBuf = "" <;>
      simp [readBlock, Channel.selectReady, Channel.recvReady,
        Channel.recvStderrReady, hi, he]

theorem readBlock_join (ch : Channel) (acc : List String) :
    String.join (readBlock ch acc).2.1 = String.join acc ++ ch.inBuf ++ ch.errBuf := by
  by_cases hi : ch.inBuf = "" <;> by_cases he : ch.errBuf = "" <;>
    simp [readBlock, Channel.selectReady, Channel.recvReady,
      Channel.recvStderrReady, hi, he, join_append_singleton, join_append,
      join_cons, join_nil, String.append_empty, String.append_assoc]

theorem readBlock_acc_append (ch : Channel) (acc : List String) :
    ∃ d, (readBlock ch acc).2.1 = acc ++ d := by
  by_cases hi : ch.inBuf = "" <;> by_cases he : ch.errBuf = "" <;>
    simp [readBlock, Channel.selectReady, Channel.recvReady,
      Channel.recvStderrReady, hi, he]

theorem readBlock_trace_reads (ch : Channel) (acc : List String) :
    ∀ a ∈ (readBlock ch acc).2.2, a.isRead = true := by
  by_cases hi : ch.inBuf = "" <;> by_cases he : ch.errBuf = "" <;>
    simp [readBlock, Channel.selectReady, Channel.recvReady,
      Channel.recvStderrReady, hi, he, Action.isRead]

/-! Lemmas about the drain loop. -/

theorem drainLoop_acc_append :
    ∀ (fuel : Nat) (sched : List Event) (ch : Channel) (acc : List String)
      (ch' : Channel) (acc' : List String),
    (drainLoop fuel sched ch acc).1 = some (ch', acc') → ∃ d, acc' = acc ++ d := by
  intro fuel
  induction fuel with
  | zero =>
    intro sched ch acc ch' acc' h
    simp [drainLoop] at h
  | succ fuel ih =>
    intro sched ch acc ch' acc' h
    rw [drainLoop] at h
    split at h
    · obtain ⟨d0, hd0⟩ := readBlock_acc_append (ch.deliver (nextEvent sched).1) acc
      simp only [] at h
      split at h
      · simp at h
        obtain ⟨-, h2⟩ := h
        exact ⟨d0, by rw [← h2, hd0]⟩
      · simp at h
        obtain ⟨d1, hd1⟩ := ih _ _ _ _ _ h
        exact ⟨d0 ++ d1, by rw [hd1, hd0, List.append_assoc]⟩
    · simp at h
      exact ⟨[], by simp [h.2]⟩

theorem drainLoop_close_action :
    ∀ (fuel : Nat) (sched : List Event) (ch : Channel) (acc : List String)
      (er : Bool) (op ep : String),
    Action.closeChannel er op ep ∈ (drainLoop fuel sched ch acc).2 →
    er = true ∧ op = "" ∧ ep = "" := by
  intro fuel
  induction fuel with
  | zero =>
    intro sched ch acc er op ep h
    simp [drainLoop] at h
  | succ fuel ih =>
    intro sched ch acc er op ep h
    rw [drainLoop] at h
    split at h
    · simp only [] at h
      split at h
      next hbreak =>
        simp only [List.mem_append, List.mem_cons, List.not_mem_nil, or_false] at h
        rcases h with h | h | h
        · have := readBlock_trace_reads (ch.deliver (nextEvent sched).1) acc _ h
          simp [Action.isRead] at this
        · cases h
        · rw [readBlock_channel] at hbreak
          injection h with h1 h2 h3
          rw [readBlock_channel] at h2 h3
          refine ⟨?_, by simp [h2], by simp [h3]⟩
          simp only [Channel.exitStatusReady, Bool.and_eq_true] at hbreak
          rw [h1, readBlock_channel]
          exact hbreak.1.1
      · simp only [List.mem_append] at h
        rcases h with h | h
        · have := readBlock_trace_reads (ch.deliver (nextEvent sched).1) acc _ h
          simp [Action.isRead] at this
        · exact ih _ _ _ _ _ _ h
    · simp at h

theorem drainLoop_nonterm :
    ∀ (fuel : Nat) (sched : List Event) (ch : Channel) (acc : List String),
    ch.closed = false → ch.exitReady = false →
    (∀ e ∈ sched, e.exit = false ∧ e.close = false) →
    (drainLoop fuel sched ch acc).1 = none := by
  intro fuel
  induction fuel with
  | zero =>
    intro sched ch acc _ _ _
    simp [drainLoop]
  | succ fuel ih =>
    intro sched ch acc hcl hex hsched
    have hev : (nextEvent sched).1.exit = false ∧ (nextEvent sched).1.close = false := by
      cases sched with
      | nil => simp [nextEvent, Event.quiet]
      | cons e es => exact hsched e (by simp [nextEvent])
    have htail : ∀ e ∈ (nextEvent sched).2, e.exit = false ∧ e.close = false := by
      cases sched with
      | nil => simp [nextEvent]
      | cons e es => exact fun x hx => hsched x (by simp [nextEvent] at hx ⊢; exact Or.inr hx)
    rw [drainLoop, if_pos (by simp [hcl])]
    simp only []
    rw [if_neg ?hb]
    case hb =>
      rw [readBlock_channel]
      simp [Channel.exitStatusReady, Channel.deliver, hex, hev.1]
    simp only []
    exact ih _ _ _
      (by rw [readBlock_channel]; simp [Channel.deliver, hcl, hev.2])
      (by rw [readBlock_channel]; simp [Channel.deliver, hex, hev.1])
      htail

theorem drainLoop_closed_term :
    ∀ (sched : List Event) (ch : Channel) (acc : List String),
    ch.closed = true →
    ∃ fuel, ((drainLoop fuel sched ch acc).1).isSome = true := by
  intro sched
  induction sched with
  | nil =>
    intro ch acc hcl
    by_cases hc : (!ch.closed || ch.recvReady || ch.recvStderrReady) = true
    · refine ⟨1 + 1, ?_⟩
      rw [drainLoop, if_pos hc]
      simp only [nextEvent]
      split
      · simp
      · simp only []
        rw [drainLoop, if_neg ?hb2]
        · simp
        case hb2 =>
          rw [readBlock_channel]
          simp [Channel.deliver, Channel.recvReady, Channel.recvStderrReady, hcl]
    · exact ⟨1, by rw [drainLoop, if_neg hc]; simp⟩
  | cons e es ih =>
    intro ch acc hcl
    by_cases hc : (!ch.closed || ch.recvReady || ch.recvStderrReady) = true
    · have hcl2 : ((readBlock (ch.deliver e) acc).1).closed = true := by
        rw [readBlock_channel]; simp [Channel.deliver, hcl]
      obtain ⟨ft, hft⟩ :=
        ih (readBlock (ch.deliver e) acc).1 (readBlock (ch.deliver e) acc).2.1 hcl2
      refine ⟨ft + 1, ?_⟩
      rw [drainLoop, if_pos hc]
      simp only [nextEvent]
      split
      · simp
      · simp only []
        exact hft
    · exact ⟨1, by rw [drainLoop, if_neg hc]; simp⟩

theorem drainLoop_event_term :
    ∀ (sched : List Event), (∃ e ∈ sched, e.exit = true ∨ e.close = true) →
    ∀ (ch : Channel) (acc : List String),
    ∃ fuel, ((drainLoop fuel sched ch acc).1).isSome = true := by
  intro sched
  induction sched with
  | nil =>
    rintro ⟨e, he, -⟩
    cases he
  | cons e es ih =>
    rintro ⟨x, hx, hxp⟩ ch acc
    by_cases hc : (!ch.closed || ch.recvReady || ch.recvStderrReady) = true
    · by_cases hb : (ch.deliver e).exitReady = true
      · refine ⟨1, ?_⟩
        rw [drainLoop, if_pos hc]
        simp only [nextEvent]
        rw [if_pos ?hbr]
        · simp
        case hbr =>
          rw [readBlock_channel]
          simp [Channel.exitStatusReady, Channel.recvReady, Channel.recvStderrReady, hb]
      · have hnobreak : ¬ ((((readBlock (ch.deliver e) acc).1).exitStatusReady &&
            !((readBlock (ch.deliver e) acc).1).recvStderrReady &&
            !((readBlock (ch.deliver e) acc).1).recvReady) = true) := by
          rw [readBlock_channel]
          simp [Channel.exitStatusReady, Channel.recvReady, Channel.recvStderrReady]
          simpa using hb
        have hnext : ∃ fuel,
            ((drainLoop fuel es (readBlock (ch.deliver e) acc).1
              (readBlock (ch.deliver e) acc).2.1).1).isSome = true := by
          rcases List.mem_cons.mp hx with hxe | hxes
          · subst hxe
            rcases hxp with hxe2 | hxc
            · exact absurd (by simp [Channel.deliver, hxe2]) hb
            · refine drainLoop_closed_term es _ _ ?_
              rw [readBlock_channel]
              simp [Channel.deliver, hxc]
          · exact ih ⟨x, hxes, hxp⟩ _ _
        obtain ⟨ft, hft⟩ := hnext
        refine ⟨ft + 1, ?_⟩
        rw [drainLoop, if_pos hc]
        simp only [nextEvent]
        rw [if_neg hnobreak]
        simp only []
        exact hft
    · exact ⟨1, by rw [drainLoop, if_neg hc]; simp⟩

theorem drainLoop_complete_interleave :
    ∀ (pre : List Event) (e : Event) (ch : Channel) (acc : List String)
      (X Y : List Char),
    (∀ x ∈ pre, x.exit = false ∧ x.close = false) → e.exit = true →
    ch.closed = false → ch.exitReady = false →
    IsInterleave X Y (String.join acc).data →
    ∃ ch' acc' tr,
      drainLoop (pre.length + 1) (pre ++ [e]) ch acc = (some (ch', acc'), tr) ∧
      IsInterleave (X ++ ch.inBuf.data ++ (schedOut (pre ++ [e])).data)
        (Y ++ ch.errBuf.data ++ (schedErr (pre ++ [e])).data)
        (String.join acc').data := by
  intro pre
  induction pre with
  | nil =>
    intro e ch acc X Y hpre hex hcl hexr hI
    rw [drainLoop, if_pos (by simp [hcl])]
    simp only [List.nil_append, nextEvent]
    rw [if_pos ?hbr]
    case hbr =>
      rw [readBlock_channel]
      simp [Channel.exitStatusReady, Channel.recvReady, Channel.recvStderrReady,
        Channel.deliver, hex]
    refine ⟨_, _, _, rfl, ?_⟩
    rw [readBlock_join]
    have h2 := hI.append
      (IsInterleave.pair (ch.deliver e).inBuf.data (ch.deliver e).errBuf.data)
    simpa [Channel.deliver, schedOut_cons, schedOut_nil, schedErr_cons, schedErr_nil,
      String.append_empty, String.data_append, List.append_assoc] using h2
  | cons p ps ih =>
    intro e ch acc X Y hpre hex hcl hexr hI
    have hp := hpre p (by simp)
    obtain ⟨ch', acc', tr', heq, hIfin⟩ :=
      ih e (readBlock (ch.deliver p) acc).1 (readBlock (ch.deliver p) acc).2.1
        (X ++ (ch.inBuf.data ++ p.out.data)) (Y ++ (ch.errBuf.data ++ p.err.data))
        (fun x hx => hpre x (List.mem_cons_of_mem _ hx)) hex
        (by rw [readBlock_channel]; simp [Channel.deliver, hcl, hp.2])
        (by rw [readBlock_channel]; simp [Channel.deliver, hexr, hp.1])
        (by
          rw [readBlock_join]
          have h2 := hI.append
            (IsInterleave.pair (ch.deliver p).inBuf.data (ch.deliver p).errBuf.data)
          simpa [Channel.deliver, String.data_append, List.append_assoc] using h2)
    rw [drainLoop, if_pos (by simp [hcl])]
    simp only [List.cons_append, nextEvent, List.length_cons]
    rw [if_neg ?hnb]
    case hnb =>
      rw [readBlock_channel]
      simp [Channel.exitStatusReady, Channel.deliver, hexr, hp.1]
    rw [heq]
    refine ⟨ch', acc', _ ++ tr', rfl, ?_⟩
    rw [readBlock_channel] at hIfin
    simpa [Channel.deliver, schedOut_cons, schedErr_cons, String.data_append,
      List.append_assoc] using hIfin

/-! Characterization of a successful `execCaptured` run. -/

theorem execCaptured_some (cmd : String) (ch0 : Channel) (sched : List Event)
    (out0 : List String) (file : Option String) (fuel : Nat)
    (out2 : List String) (cap : String) (rc : Int) (f1 : Option String)
    (tr : List Action)
    (h : execCaptured cmd ch0 sched out0 file fuel = (some (out2, cap, rc, f1), tr)) :
    (∃ d, out2 = out0 ++ d) ∧ cap = String.join out2 ∧
    (file = none → f1 = none) ∧ (∀ f, file = some f → f1 = some (f ++ cap)) := by
  unfold execCaptured at h
  simp only [] at h
  rcases hdd : drainLoop fuel sched
      { inBuf := "", errBuf := ch0.errBuf, exitReady := ch0.exitReady,
        exitCode := ch0.exitCode, closed := ch0.closed, readShut := ch0.readShut,
        writeShut := true, stdinClosed := true }
      (out0 ++ [ch0.inBuf]) with ⟨o, tr'⟩
  rw [hdd] at h
  cases o with
  | none => simp at h
  | some p =>
    obtain ⟨ch4, o2⟩ := p
    obtain ⟨d1, hd1⟩ := drainLoop_acc_append fuel sched _ _ _ _ (by rw [hdd])
    cases file with
    | none =>
      simp only [Prod.mk.injEq, Option.some.injEq] at h
      obtain ⟨⟨ho2, hcap, -, hf1⟩, -⟩ := h
      subst ho2
      refine ⟨⟨[ch0.inBuf] ++ d1, by rw [hd1, List.append_assoc]⟩, hcap.symm, ?_, ?_⟩
      · intro _; exact hf1.symm
      · intro f hf; cases hf
    | some f =>
      simp only [Prod.mk.injEq, Option.some.injEq] at h
      obtain ⟨⟨ho2, hcap, -, hf1⟩, -⟩ := h
      subst ho2
      refine ⟨⟨[ch0.inBuf] ++ d1, by rw [hd1, List.append_assoc]⟩, hcap.symm, ?_, ?_⟩
      · intro hff; cases hff
      · intro g hg
        injection hg with hg
        subst hg
        rw [← hf1, hcap]

/-- The first actions of every captured-execution trace. -/
theorem execCaptured_trace_head (cmd : String) (ch0 : Channel) (sched : List Event)
    (out0 : List String) (file : Option String) (fuel : Nat) :
    ∃ rest, (execCaptured cmd ch0 sched out0 file fuel).2 =
      Action.execCommand cmd :: Action.closeStdin :: Action.shutdownWrite :: rest := by
  unfold execCaptured
  simp only []
  rcases hdd : drainLoop fuel sched
      { inBuf := "", errBuf := ch0.errBuf, exitReady := ch0.exitReady,
        exitCode := ch0.exitCode, closed := ch0.closed, readShut := ch0.readShut,
        writeShut := true, stdinClosed := true }
      (out0 ++ [ch0.inBuf]) with ⟨o, tr'⟩
  cases o with
  | none => exact ⟨_, rfl⟩
  | some p =>
    obtain ⟨ch4, o2⟩ := p
    exact ⟨_, rfl⟩

/-- Session-level success comes from a successful channel run on a client
with a live transport, leaving the client untouched. -/
theorem executeFull_some (s : SSH) (cmd : String) (w : World) (file : Option String)
    (fuel : Nat) (s' : SSH) (cap : String) (rc : Int) (f1 : Option String)
    (h : SSH.executeFull s cmd w file fuel = .ok (some (s', cap, rc, f1))) :
    ∃ tr, execCaptured cmd w.channel w.sched s.output file fuel =
        (some (s'.output, cap, rc, f1), tr) ∧ s'.client = s.client := by
  obtain ⟨sc, so⟩ := s
  cases sc with
  | none => simp [SSH.executeFull] at h
  | some c =>
    obtain ⟨b⟩ := c
    cases b with
    | none => simp [SSH.executeFull] at h
    | some u =>
      simp only [SSH.executeFull] at h
      rcases hec : execCaptured cmd w.channel w.sched so file fuel with ⟨o, tr⟩
      rw [hec] at h
      cases o with
      | none => simp at h
      | some p =>
        obtain ⟨o2, cap', rc', f1'⟩ := p
        simp only [Except.ok.injEq, Option.some.injEq, Prod.mk.injEq] at h
        obtain ⟨hs', hcap, hrc, hf1⟩ := h
        refine ⟨tr, ?_, ?_⟩
        · rw [← hs']
          simp [hcap, hrc, hf1]
        · rw [← hs']

/-- C1: for every captured execution and every channel trace in which all
stdout and stderr bytes arrive before the exit-status-ready signal (the
signalling event itself may carry final bytes), the drain loop returns,
and the captured string handed back to the caller is an order-preserving
interleaving of the full stdout byte stream and the full stderr byte
stream (appended to whatever the session accumulator already held), so no
byte of either stream is lost, even though the relative interleaving of
the two streams is unspecified. -/
theorem C1_captured_no_data_loss (cmd : String) (w : World) (out0 : List String)
    (file : Option String) (pre : List Event) (e : Event)
    (hsched : w.sched = pre ++ [e])
    (hpre : ∀ x ∈ pre, x.exit = false ∧ x.close = false)
    (hex : e.exit = true) :
    ∃ out2 cap rc f1 tr,
      execCaptured cmd w.channel w.sched out0 file (w.sched.length) =
        (some (out2, cap, rc, f1), tr) ∧
      IsInterleave
        ((String.join out0).data ++ w.initOut.data ++ (schedOut w.sched).data)
        (w.initErr.data ++ (schedErr w.sched).data)
        cap.data := by
  rw [hsched]
  have hI : IsInterleave ((String.join out0).data ++ w.initOut.data) []
      (String.join (out0 ++ [w.initOut])).data := by
    rw [join_append_singleton]
    simpa [String.data_append] using
      IsInterleave.left_nil ((String.join out0).data ++ w.initOut.data)
  obtain ⟨ch', acc', tr', heq, hfin⟩ :=
    drainLoop_complete_interleave pre e
      ⟨"", w.initErr, false, w.exitCode, false, false, true, true⟩
      (out0 ++ [w.initOut])
      ((String.join out0).data ++ w.initOut.data) [] hpre hex rfl rfl hI
  simp only [execCaptured, World.channel, List.length_append, List.length_singleton]
  rw [heq]
  refine ⟨_, _, _, _, _, rfl, ?_⟩
  simpa [String.data_append, List.append_assoc] using hfin

/-- Witness for C1 at a concrete world: one data event, then the final
event carrying the last bytes and the exit signal. -/
theorem C1_witness :
    ∃ out2 cap rc f1 tr,
      execCaptured "cmd"
        (World.channel ⟨"a", "b", [⟨"x", "y", false, false⟩, ⟨"z", "v", true, false⟩], 0⟩)
        [⟨"x", "y", false, false⟩, ⟨"z", "v", true, false⟩] [] none 2 =
        (some (out2, cap, rc, f1), tr) ∧
      IsInterleave
        ((String.join []).data ++ "a".data ++
          (schedOut [⟨"x", "y", false, false⟩, ⟨"z", "v", true, false⟩]).data)
        ("b".data ++ (schedErr [⟨"x", "y", false, false⟩, ⟨"z", "v", true, false⟩]).data)
        cap.data :=
  C1_captured_no_data_loss "cmd" ⟨"a", "b", [⟨"x", "y", false, false⟩, ⟨"z", "v", true, false⟩], 0⟩
    [] none [⟨"x", "y", false, false⟩] ⟨"z", "v", true, false⟩ rfl (by decide) rfl

/-- C2: in the captured-execution drain loop, the read direction is shut
down and the channel closed only in a state where the channel reports
exit-status-ready and neither stdout nor stderr has data pending: every
channel-close action recorded in a captured execution trace carries
exit-ready = true and two empty pending buffers. -/
theorem C2_close_only_when_drained (cmd : String) (ch0 : Channel)
    (sched : List Event) (out0 : List String) (file : Option String) (fuel : Nat)
    (er : Bool) (op ep : String)
    (hmem : Action.closeChannel er op ep ∈ (execCaptured cmd ch0 sched out0 file fuel).2) :
    er = true ∧ op = "" ∧ ep = "" := by
  unfold execCaptured at hmem
  simp only [] at hmem
  rcases hdd : drainLoop fuel sched
      { inBuf := "", errBuf := ch0.errBuf, exitReady := ch0.exitReady,
        exitCode := ch0.exitCode, closed := ch0.closed, readShut := ch0.readShut,
        writeShut := true, stdinClosed := true }
      (out0 ++ [ch0.inBuf]) with ⟨o, tr⟩
  rw [hdd] at hmem
  have hloop : Action.closeChannel er op ep ∈ tr → er = true ∧ op = "" ∧ ep = "" := by
    intro h
    refine drainLoop_close_action fuel sched
      { inBuf := "", errBuf := ch0.errBuf, exitReady := ch0.exitReady,
        exitCode := ch0.exitCode, closed := ch0.closed, readShut := ch0.readShut,
        writeShut := true, stdinClosed := true }
      (out0 ++ [ch0.inBuf]) er op ep ?_
    rw [hdd]
    exact h
  cases o with
  | none =>
    simp at hmem
    exact hloop hmem
  | some p =>
    obtain ⟨ch4, o2⟩ := p
    cases file with
    | none =>
      simp at hmem
      exact hloop hmem
    | some f =>
      simp at hmem
      exact hloop hmem

/-- Witness for C2: a concrete run whose trace does close the channel. -/
theorem C2_witness : (true = true) ∧ ("" : String) = "" ∧ ("" : String) = "" :=
  C2_close_only_when_drained "c" (World.channel ⟨"a", "b", [⟨"x", "y", true, false⟩], 0⟩)
    [⟨"x", "y", true, false⟩] [] none 3 true "" "" (by decide)

/-- C3 is violated by the code (code bug): because `self._output` is never
cleared between calls, a second `execute` on the same session whose
command produces no output and exits with status 7 returns the previous
call's captured text `"hello\n"` instead of the empty string the
specification requires for a command that produces no output. -/
theorem C3_second_call_returns_stale_output :
    SSH.execute ⟨some ⟨some ()⟩, []⟩ "echo hello"
      ⟨"", "", [⟨"hello\n", "", true, false⟩], 0⟩ 2 =
      .ok (some (⟨some ⟨some ()⟩, ["", "hello\n"]⟩, "hello\n", 0, none)) ∧
    SSH.execute ⟨some ⟨some ()⟩, ["", "hello\n"]⟩ "exit 7"
      ⟨"", "", [⟨"", "", true, false⟩], 7⟩ 2 =
      .ok (some (⟨some ⟨some ()⟩, ["", "hello\n", ""]⟩, "hello\n", 7, none)) ∧
    ("hello\n" : String) ≠ "" :=
  ⟨rfl, rfl, by decide⟩

/-- C4: `self._output` starts empty at construction and execution only
ever appends to it: every successful captured execution leaves the
accumulator equal to the old accumulator plus a suffix, and the string
returned to the caller is the join of that whole grown accumulator --
i.e. the concatenation of everything captured by executions 1..n on the
same session, including anything accumulated earlier. -/
theorem C4_output_accumulator_append_only :
    SSH.mk0.output = [] ∧
    ∀ (s : SSH) (cmd : String) (w : World) (file : Option String) (fuel : Nat)
      (s' : SSH) (cap : String) (rc : Int) (f1 : Option String),
      SSH.executeFull s cmd w file fuel = .ok (some (s', cap, rc, f1)) →
      (∃ d, s'.output = s.output ++ d) ∧ cap = String.join s'.output := by
  refine ⟨rfl, ?_⟩
  intro s cmd w file fuel s' cap rc f1 h
  obtain ⟨tr, hec, -⟩ := executeFull_some s cmd w file fuel s' cap rc f1 h
  obtain ⟨⟨d, hd⟩, hcap, -, -⟩ :=
    execCaptured_some cmd w.channel w.sched s.output file fuel _ _ _ _ _ hec
  exact ⟨⟨d, hd⟩, by rw [hcap]⟩

/-- Witness for C4 at a concrete execution. -/
theorem C4_witness :
    (∃ d, (⟨some ⟨some ()⟩, ["", "hello\n"]⟩ : SSH).output =
      (⟨some ⟨some ()⟩, []⟩ : SSH).output ++ d) ∧
    ("hello\n" : String) = String.join ["", "hello\n"] :=
  C4_output_accumulator_append_only.2 ⟨some ⟨some ()⟩, []⟩ "echo hello"
    ⟨"", "", [⟨"hello\n", "", true, false⟩], 0⟩ none 2
    ⟨some ⟨some ()⟩, ["", "hello\n"]⟩ "hello\n" 0 none rfl

/-- Every read action in a trace whose first three actions are non-reads
sits at index at least 3. -/
theorem trace_reads_late {t rest : List Action} {a1 a2 a3 : Action}
    (htr : t = a1 :: a2 :: a3 :: rest)
    (h1 : a1.isRead = false) (h2 : a2.isRead = false) (h3 : a3.isRead = false) :
    ∀ (i : Nat) (a : Action), t.get? i = some a → a.isRead = true → 3 ≤ i := by
  intro i a hget hread
  subst htr
  match i with
  | 0 =>
    simp only [List.get?] at hget
    injection hget with hget
    rw [← hget, h1] at hread
    cases hread
  | 1 =>
    simp only [List.get?] at hget
    injection hget with hget
    rw [← hget, h2] at hread
    cases hread
  | 2 =>
    simp only [List.get?] at hget
    injection hget with hget
    rw [← hget, h3] at hread
    cases hread
  | (n + 3) => omega

/-- C5: in both execution variants, stdin is closed and the write
direction shut down before any read of stdout or stderr happens: the
first three actions of both traces are exec-command, close-stdin and
shutdown-write, and every read action sits at index at least 3. -/
theorem C5_write_side_closed_before_reads (cmd : String) (ch0 : Channel)
    (sched : List Event) (out0 : List String) (file : Option String) (fuel : Nat)
    (lines : List String) (rcode : Int) :
    ((execCaptured cmd ch0 sched out0 file fuel).2.take 3 =
      [Action.execCommand cmd, Action.closeStdin, Action.shutdownWrite] ∧
     ∀ (i : Nat) (a : Action),
       (execCaptured cmd ch0 sched out0 file fuel).2.get? i = some a →
       a.isRead = true → 3 ≤ i) ∧
    ((executeRealtime cmd lines rcode).2.take 3 =
      [Action.execCommand cmd, Action.closeStdin, Action.shutdownWrite] ∧
     ∀ (i : Nat) (a : Action),
       (executeRealtime cmd lines rcode).2.get? i = some a →
       a.isRead = true → 3 ≤ i) := by
  obtain ⟨rest, hres⟩ := execCaptured_trace_head cmd ch0 sched out0 file fuel
  have hrt : (executeRealtime cmd lines rcode).2 =
      Action.execCommand cmd :: Action.closeStdin :: Action.shutdownWrite ::
        ((lines.map fun l => [Action.readLine l, Action.printLine l]).flatten ++
          [Action.shutdownRead, Action.closeChannelRealtime]) := rfl
  refine ⟨⟨?_, trace_reads_late hres rfl rfl rfl⟩,
    ⟨?_, trace_reads_late hrt rfl rfl rfl⟩⟩
  · rw [hres]
    simp [List.take_succ_cons]
  · rw [hrt]
    simp [List.take_succ_cons]

/-- Witness for C5: the trace prefix at a concrete captured execution. -/
theorem C5_witness :
    (execCaptured "c" (World.channel ⟨"a", "b", [⟨"x", "y", true, false⟩], 0⟩)
        [⟨"x", "y", true, false⟩] [] none 3).2.take 3 =
      [Action.execCommand "c", Action.closeStdin, Action.shutdownWrite] :=
  (C5_write_side_closed_before_reads "c"
    (World.channel ⟨"a", "b", [⟨"x", "y", true, false⟩], 0⟩)
    [⟨"x", "y", true, false⟩] [] none 3 ["l"] 0).1.1

/-- C6: the captured-execution drain loop terminates for every channel
trace that eventually signals exit-status-ready or closes the channel
(pending data is drained first), and for a channel trace that never
signals exit-status-ready and never closes the channel the loop runs
forever -- the core imposes no timeout or cancellation of its own. -/
theorem C6_drain_loop_termination :
    (∀ (fuel : Nat) (sched : List Event) (ch : Channel) (acc : List String),
      ch.closed = false → ch.exitReady = false →
      (∀ e ∈ sched, e.exit = false ∧ e.close = false) →
      (drainLoop fuel sched ch acc).1 = none) ∧
    (∀ (sched : List Event) (ch : Channel) (acc : List String),
      (∃ e ∈ sched, e.exit = true ∨ e.close = true) →
      ∃ fuel, ((drainLoop fuel sched ch acc).1).isSome = true) :=
  ⟨drainLoop_nonterm, fun sched ch acc hx => drainLoop_event_term sched hx ch acc⟩

/-- Witness for C6: a quiet schedule never terminates; an exit-signalling
schedule does. -/
theorem C6_witness :
    (drainLoop 5 [⟨"x", "y", false, false⟩] ⟨"", "", false, 0, false, false, true, true⟩ []).1 = none ∧
    ∃ fuel, ((drainLoop fuel [⟨"", "", true, false⟩]
      ⟨"", "", false, 0, false, false, true, true⟩ []).1).isSome = true :=
  ⟨C6_drain_loop_termination.1 5 [⟨"x", "y", false, false⟩] _ [] rfl rfl (by simp),
   C6_drain_loop_termination.2 [⟨"", "", true, false⟩] _ []
     ⟨⟨"", "", true, false⟩, by simp, Or.inl rfl⟩⟩

/-- C7: `execute_file` writes exactly the string it returns to the (fresh)
output file, so reading the file back yields the returned captured string
byte-for-byte. -/
theorem C7_file_roundtrip (s : SSH) (cmd : String) (w : World) (fuel : Nat)
    (s' : SSH) (cap : String) (rc : Int) (f1 : Option String)
    (h : SSH.executeFile s cmd w "" fuel = .ok (some (s', cap, rc, f1))) :
    f1 = some cap := by
  obtain ⟨tr, hec, -⟩ := executeFull_some s cmd w (some "") fuel s' cap rc f1 h
  obtain ⟨-, -, -, hf⟩ :=
    execCaptured_some cmd w.channel w.sched s.output (some "") fuel _ _ _ _ _ hec
  rw [hf "" rfl, String.empty_append]

/-- Witness for C7 at a concrete execution. -/
theorem C7_witness : (some "hello\n" : Option String) = some "hello\n" :=
  C7_file_roundtrip ⟨some ⟨some ()⟩, []⟩ "echo hello"
    ⟨"", "", [⟨"hello\n", "", true, false⟩], 0⟩ 2
    ⟨some ⟨some ()⟩, ["", "hello\n"]⟩ "hello\n" 0 (some "hello\n") rfl

/-- C8: `disconnect` is idempotent -- a second (and any further)
disconnect produces no error and changes nothing further, and disconnect
on a handle with no client (never connected) is a no-op. -/
theorem C8_disconnect_idempotent (s : SSH) :
    SSH.disconnect (SSH.disconnect s) = SSH.disconnect s ∧
    (s.client = none → SSH.disconnect s = s) := by
  obtain ⟨sc, so⟩ := s
  cases sc with
  | none => exact ⟨rfl, fun _ => rfl⟩
  | some c => exact ⟨rfl, fun h => by cases h⟩

/-- Witness for C8 at concrete handles. -/
theorem C8_witness :
    SSH.disconnect (SSH.disconnect ⟨some ⟨some ()⟩, []⟩) =
      SSH.disconnect ⟨some ⟨some ()⟩, []⟩ ∧
    SSH.disconnect SSH.mk0 = SSH.mk0 :=
  ⟨(C8_disconnect_idempotent ⟨some ⟨some ()⟩, []⟩).1,
   (C8_disconnect_idempotent SSH.mk0).2 rfl⟩

/-- C9 as stated is false on the code: `SSHClient.close()` sets the
client's `_transport` to `None`, so an execute after disconnect fails
inside `exec_command` with a Python `AttributeError` (`'NoneType' object
has no attribute 'open_session'`), which is not of the connection-error
kind (`SSHConnectionError` or a subclass of it). -/
theorem C9_counterexample :
    SSH.executeFull (SSH.disconnect ⟨some ⟨some ()⟩, []⟩) "ls" ⟨"", "", [], 0⟩ none 1 =
      .error (.attributeError "NoneType object has no attribute open_session") ∧
    raisedConnectionError
      (SSH.executeFull (SSH.disconnect ⟨some ⟨some ()⟩, []⟩) "ls" ⟨"", "", [], 0⟩ none 1) =
      false :=
  ⟨rfl, rfl⟩

/-- C9 (amended): after `disconnect` on a handle that held a client, the
handle is invalidated for further execution -- every subsequent execute
call on it (with or without a side file, any command, any fuel) fails --
but the error raised is the Python `AttributeError` from dereferencing the
client's now-`None` transport, not a connection error. -/
theorem C9_execute_after_disconnect_fails (s : SSH) (c : Client) (cmd : String)
    (w : World) (file : Option String) (fuel : Nat) (hs : s.client = some c) :
    SSH.executeFull (SSH.disconnect s) cmd w file fuel =
      .error (.attributeError "NoneType object has no attribute open_session") := by
  obtain ⟨sc, so⟩ := s
  cases sc with
  | none => cases hs
  | some c' => rfl

/-- Witness for C9 at a concrete handle. -/
theorem C9_witness :
    SSH.executeFull (SSH.disconnect ⟨some ⟨some ()⟩, ["old"]⟩) "ls" ⟨"", "", [], 0⟩ (some "") 1 =
      .error (.attributeError "NoneType object has no attribute open_session") :=
  C9_execute_after_disconnect_fails ⟨some ⟨some ()⟩, ["old"]⟩ ⟨some ()⟩ "ls"
    ⟨"", "", [], 0⟩ (some "") 1 rfl

/-- C10: a connection attempt that fails with a transport-level or
authentication failure is not retried -- exactly one attempt is made --
and raises a single connection error whose message contains the target
hostname from the supplied configuration. -/
theorem C10_connect_error_once_with_host (cfg : Config) (err : TransportFailure)
    (hcfg : SSH.configure cfg = .ok ()) :
    ∃ msg, SSH.connectPrivate cfg (.error err) = (.error (.connectionError msg), 1) ∧
      ∃ pre post, msg = pre ++ cfg.hostname ++ post := by
  refine ⟨"Connection to '" ++ cfg.hostname ++ "' failed with error: " ++ err.message,
    ?_, "Connection to '", "' failed with error: " ++ err.message, ?_⟩
  · simp [SSH.connectPrivate, hcfg]
  · exact String.append_assoc ("Connection to '" ++ cfg.hostname)
      "' failed with error: " err.message

/-- Witness for C10 at a concrete configuration and failure. -/
theorem C10_witness :
    ∃ msg, SSH.connectPrivate ⟨["hostname"], "gateway01"⟩ (.error (.sshException "boom")) =
        (.error (.connectionError msg), 1) ∧
      ∃ pre post, msg = pre ++ "gateway01" ++ post :=
  C10_connect_error_once_with_host ⟨["hostname"], "gateway01"⟩ (.sshException "boom") rfl

end PySsh
